import Mathlib

/-!
Verification of the yahooapi repository: a shallow embedding of its
credential-lifecycle handlers (auth.go), of GetUserCollection
(the request relay), and — modelled from the specification where the
source leaves only stubs — of the address composer and the mutating
relay verbs.
-/

namespace YahooApi

/-- An oauth2.Token as used by the source: access token, refresh token and
expiry (unix seconds, as an integer clock). -/
structure Token where
  accessToken : String
  refreshToken : String
  expiry : Int
deriving DecidableEq, Repr

/-- A dynamically typed value held in the gorilla session value map.
The source stores strings, and the credential either as a pointer
value (auth.go line 72 stores tok, a pointer of type star-oauth2.Token)
or would need a plain oauth2.Token value for the read in
GetUserCollection to succeed; both shapes are represented so that the
Go type assertions can be embedded faithfully. -/
inductive GoVal where
  | str : String → GoVal
  | token : Token → GoVal
  | tokenPtr : Token → GoVal
deriving DecidableEq, Repr

/-- The session value map (session.Values), an association list keyed by
string; absent keys read as the nil interface value, embedded as none. -/
abbrev SessionValues := List (String × GoVal)

/-- Indexing session.Values with a key: the first binding wins, a missing
key yields none (the nil interface value in Go). -/
def lookupVal : SessionValues → String → Option GoVal
  | [], _ => none
  | (k', v) :: rest, k => if k' = k then some v else lookupVal rest k

/-- session.Values assignment: overwrite the first binding of the key, or
append a fresh binding. -/
def setVal : SessionValues → String → GoVal → SessionValues
  | [], k, v => [(k, v)]
  | (k', v') :: rest, k, v =>
      if k' = k then (k, v) :: rest else (k', v') :: setVal rest k v

/-- The Go type assertion value.(string): succeeds on a string, panics
(none) on anything else, including the nil interface of a missing key. -/
def assertString : Option GoVal → Option String
  | some (GoVal.str s) => some s
  | _ => none

/-- The Go type assertion value.(oauth2.Token) — the NON-pointer form used
at part_001 line 3957: it succeeds only on a plain Token value and panics
(none) on anything else, in particular on a star-oauth2.Token pointer value
and on the nil interface of a missing key. -/
def assertToken : Option GoVal → Option Token
  | some (GoVal.token t) => some t
  | _ => none

/-- The configuration record built by NewYahooConfig (auth.go lines
12-16): client identity, host name (from which the callback redirect URL
is derived) and the landing location. -/
structure YahooConfig where
  clientID : String
  clientSecret : String
  scopes : List String
  hostName : String
  landing : String
deriving DecidableEq, Repr

/-- The redirect URL registered by NewYahooConfig (auth.go line 30). -/
def redirectURL (a : YahooConfig) : String :=
  a.hostName ++ "/yahoo/auth/callback"

/-- The consent page URL built by conf.AuthCodeURL at auth.go line 47:
the fixed Yahoo authorization endpoint parameterized by client identity,
redirect URL and the anti-forgery state string. -/
def authCodeURL (a : YahooConfig) (state : String) : String :=
  "https://api.login.yahoo.com/oauth2/request_auth?access_type=online&client_id="
    ++ a.clientID ++ "&redirect_uri=" ++ redirectURL a
    ++ "&response_type=code&state=" ++ state

/-- The observable outcome of one of the HTTP handlers in auth.go:
an http.Error early return with a status, a runtime panic from a failed
type assertion, process termination through log.Fatal, or a 302 redirect
carrying the saved session values. -/
inductive HandlerResult where
  | httpError (status : Nat) (msg : String)
  | panicked
  | fatal
  | redirect (location : String) (session : SessionValues)
deriving DecidableEq, Repr

/-- Embeds AuthYahoo (auth.go lines 37-54, identical in
src/unnamed/part_002 lines 35-52): fetch the session (http.Error 500 on
failure), then read session.Values with key state through an unchecked
type assertion to string, and redirect to the consent URL built from it.
The url.QueryUnescape step only logs on failure and is the identity on
the URLs the code builds, so it is omitted. -/
def AuthYahoo (a : YahooConfig) (getSession : Except String SessionValues) :
    HandlerResult :=
  match getSession with
  | .error e => .httpError 500 e
  | .ok session =>
    match assertString (lookupVal session "state") with
    | none => .panicked
    | some st => .redirect (authCodeURL a st) session

/-- Embeds AuthYahooCallback (auth.go lines 56-79): fetch the session
(http.Error 500 on failure), read the form value code, exchange it for a
token (log.Fatal on failure, terminating the process), store the token
POINTER under key token and the guid under key xoauth_yahoo_guid, save,
and redirect to the landing page. The form value state is accepted as a
parameter but — exactly as in the source — never read. The second
component of the result is the list of codes passed to the token
exchange, so that theorems can count exchange invocations. -/
def AuthYahooCallback (a : YahooConfig) (getSession : Except String SessionValues)
    (formCode formState formGuid : String)
    (exchange : String → Except String Token) :
    HandlerResult × List String :=
  match getSession with
  | .error e => (.httpError 500 e, [])
  | .ok session =>
    match exchange formCode with
    | .error _ => (.fatal, [formCode])
    | .ok tok =>
      let session1 := setVal session "token" (.tokenPtr tok)
      let session2 := setVal session1 "xoauth_yahoo_guid" (.str formGuid)
      (.redirect a.landing session2, [formCode])

/-- An outbound HTTP request issued by the authenticated client that
conf.Client builds from the session token (part_001 line 3958): the verb,
the URL, and the token the client attaches as authorization. -/
structure Request where
  verb : String
  url : String
  authToken : Token
deriving DecidableEq, Repr

/-- A remote HTTP response: status and body bytes. -/
structure HTTPResponse where
  status : Nat
  body : String
deriving DecidableEq, Repr

/-- The UserCollection record of part_001: the raw response body is its
only field — the response status is not part of it. -/
structure UserCollection where
  Body : String
deriving DecidableEq, Repr

/-- The observable outcome of GetUserCollection: nil returned after the
session fetch fails (the error is only logged), a runtime panic from the
failed type assertion, process termination through log.Fatal on a network
or read failure, or the UserCollection. -/
inductive FetchResult where
  | nilResult
  | panicked
  | fatal
  | ok : UserCollection → FetchResult
deriving DecidableEq, Repr

/-- The fixed URL GetUserCollection issues its GET against (part_001
line 3963). -/
def usersURL : String :=
  "http://fantasysports.yahooapis.com/fantasy/v2/users;use_login=1"

/-- Embeds GetUserCollection (part_001 lines 3950-3982): fetch the
session (log and return nil on failure), read session.Values with key
token through an unchecked type assertion to the NON-pointer type
oauth2.Token, build the authenticated client from that token, issue one
GET to the fixed users URL, and wrap the body verbatim in a
UserCollection. transport models the authenticated client; its error
covers both a failed client.Get and a failed ioutil.ReadAll, and either
one is answered with log.Fatal in the source. The second component is
the list of requests issued, so that theorems can count network calls. -/
def GetUserCollection (getSession : Except String SessionValues)
    (transport : Request → Except String HTTPResponse) :
    FetchResult × List Request :=
  match getSession with
  | .error _ => (.nilResult, [])
  | .ok session =>
    match assertToken (lookupVal session "token") with
    | none => (.panicked, [])
    | some tok =>
      let req : Request := { verb := "GET", url := usersURL, authToken := tok }
      match transport req with
      | .error _ => (.fatal, [req])
      | .ok res => (.ok { Body := res.body }, [req])

/-- Modelled from the spec: ResourceAddress, absent from the source
(the source issues only fixed URLs and leaves the mutation endpoints as
empty stubs). A position in the remote resource graph: entity type, zero
or more keys, an ordered chain of nested sub-resource segments, filter
name-value pairs, and out selectors (sibling sub-resource segments
attached in one round trip). -/
inductive ResourceAddress where
  | mk : String → List String → List ResourceAddress →
      List (String × String) → List ResourceAddress → ResourceAddress
deriving Repr

/-- The entity type of an address segment. -/
def entityOf : ResourceAddress → String
  | .mk et _ _ _ _ => et

/-- The sub-resource chain of an address segment. -/
def chainOf : ResourceAddress → List ResourceAddress
  | .mk _ _ subs _ _ => subs

/-- The out selectors of an address segment. -/
def outsOf : ResourceAddress → List ResourceAddress
  | .mk _ _ _ _ outs => outs

/-- Lexicographic comparison of character lists by code point, the order
a byte-wise string sort uses on ASCII names. -/
def charListLe : List Char → List Char → Bool
  | [], _ => true
  | _ :: _, [] => false
  | a :: as, b :: bs =>
    if a.toNat < b.toNat then true
    else if b.toNat < a.toNat then false
    else charListLe as bs

/-- Lexicographic string comparison on the underlying characters. -/
def strLe (a b : String) : Bool := charListLe a.data b.data

/-- The ordering on filter pairs required by the spec: by filter name. -/
def filterLE (p q : String × String) : Prop := strLe p.1 q.1 = true

instance : DecidableRel filterLE := fun p q =>
  inferInstanceAs (Decidable (strLe p.1 q.1 = true))

/-- Modelled from the spec: the deterministic filter order — the filter
pairs sorted by filter name. -/
def sortFilters (fs : List (String × String)) : List (String × String) :=
  List.insertionSort filterLE fs

/-- The character list comparison is total. -/
theorem charListLe_total : ∀ a b : List Char,
    charListLe a b = true ∨ charListLe b a = true
  | [], _ => .inl rfl
  | _ :: _, [] => .inr rfl
  | a :: as, b :: bs => by
    simp only [charListLe]
    rcases Nat.lt_trichotomy a.toNat b.toNat with h | h | h
    · left; simp [h]
    · have ih := charListLe_total as bs
      have h1 : ¬ a.toNat < b.toNat := by omega
      have h2 : ¬ b.toNat < a.toNat := by omega
      simpa [h1, h2] using ih
    · right; simp [h]

/-- The character list comparison is transitive. -/
theorem charListLe_trans : ∀ a b c : List Char,
    charListLe a b = true → charListLe b c = true → charListLe a c = true
  | [], _, _, _, _ => rfl
  | _ :: _, [], _, hab, _ => by simp [charListLe] at hab
  | _ :: _, _ :: _, [], _, hbc => by simp [charListLe] at hbc
  | a :: as, b :: bs, c :: cs, hab, hbc => by
    simp only [charListLe] at hab hbc ⊢
    split_ifs at hab hbc ⊢ <;> try rfl
    all_goals first
      | omega
      | exact charListLe_trans as bs cs hab hbc

instance : IsTotal (String × String) filterLE :=
  ⟨fun p q => charListLe_total p.1.data q.1.data⟩

instance : IsTrans (String × String) filterLE :=
  ⟨fun p q r => charListLe_trans p.1.data q.1.data r.1.data⟩

/-- Modelled from the spec: the rendering of the filter pairs of one
segment, a semicolon-delimited clause per pair, sorted by filter name. -/
def renderFilters (fs : List (String × String)) : String :=
  String.join ((sortFilters fs).map (fun p => ";" ++ p.1 ++ "=" ++ p.2))

/-- Modelled from the spec: the base entity segment — the bare entity
type if keyless, entity/key for a single key, and the multi-key
collection form for several keys. -/
def baseSegment (et : String) (keys : List String) : String :=
  match keys with
  | [] => et
  | [k] => et ++ "/" ++ k
  | ks => et ++ ";" ++ et ++ "_keys=" ++ String.intercalate "," ks

/-- The error type of the composer; InvalidChaining rejects an out
selector that itself carries a non-empty sub-resource chain. -/
inductive ComposeError where
  | InvalidChaining
deriving DecidableEq, Repr

mutual

/-- Modelled from the spec: Compose — render the base entity segment,
append each chained sub-resource as /{segment} using the same rule
recursively, append the filter clauses sorted by name, and append a
single ;out= clause listing the out selectors in the order supplied;
reject with InvalidChaining every address whose out selectors carry a
non-empty sub-resource chain of their own. The composer is a pure
function and performs no network call. -/
def composeAddr : ResourceAddress → Except ComposeError String
  | .mk et keys subs filters outs =>
    if outs.any (fun o => !(chainOf o).isEmpty) then
      .error .InvalidChaining
    else
      match composeChain subs with
      | .error e => .error e
      | .ok subsStr =>
        let outStr :=
          if outs.isEmpty then ""
          else ";out=" ++ String.intercalate "," (outs.map entityOf)
        .ok (baseSegment et keys ++ subsStr ++ renderFilters filters ++ outStr)

/-- Modelled from the spec: the rendering of a sub-resource chain, each
segment appended as /{segment} using the full rule recursively. -/
def composeChain : List ResourceAddress → Except ComposeError String
  | [] => .ok ""
  | a :: rest =>
    match composeAddr a with
    | .error e => .error e
    | .ok s =>
      match composeChain rest with
      | .error e => .error e
      | .ok r => .ok ("/" ++ s ++ r)

end

mutual

/-- Whether an address contains, at any depth of its sub-resource chain,
an out selector that itself carries a non-empty sub-resource chain. -/
def hasBadOut : ResourceAddress → Bool
  | .mk _ _ subs _ outs =>
    outs.any (fun o => !(chainOf o).isEmpty) || hasBadOutList subs

/-- hasBadOut over a sub-resource chain. -/
def hasBadOutList : List ResourceAddress → Bool
  | [] => false
  | a :: rest => hasBadOut a || hasBadOutList rest

end

/-- Modelled from the spec: the fully composed remote request produced by
the relay for a mutating verb — verb, composed URI and the caller
supplied body document (EditWaivers and the other mutation endpoints are
empty stubs in the source). -/
structure RemoteRequest where
  verb : String
  uri : String
  body : String
deriving DecidableEq, Repr

/-- Modelled from the spec: RequestRelay Execute for PUT — compose the
address (failing fast, before any network call, on a composer error) and
transmit the caller supplied body document as the request body, with no
merging or defaulting logic. -/
def ExecutePut (addr : ResourceAddress) (body : String) :
    Except ComposeError RemoteRequest :=
  match composeAddr addr with
  | .error e => .error e
  | .ok path => .ok { verb := "PUT", uri := path, body := body }

/-! Association list lemmas for the session value map. -/

/-- Reading back the key just written yields the written value. -/
theorem lookupVal_setVal_self (s : SessionValues) (k : String) (v : GoVal) :
    lookupVal (setVal s k v) k = some v := by
  induction s with
  | nil => simp [setVal, lookupVal]
  | cons p rest ih =>
    rcases p with ⟨k', v'⟩
    by_cases h : k' = k <;> simp [setVal, lookupVal, h, ih]

/-- Writing one key leaves every other key unchanged. -/
theorem lookupVal_setVal_other (s : SessionValues) (k k2 : String) (v : GoVal)
    (h : k2 ≠ k) : lookupVal (setVal s k2 v) k = lookupVal s k := by
  induction s with
  | nil => simp [setVal, lookupVal, h]
  | cons p rest ih =>
    rcases p with ⟨k', v'⟩
    by_cases h' : k' = k2
    · subst h'
      simp [setVal, lookupVal, h]
    · simp [setVal, lookupVal, h', ih]

mutual

/-- An address containing an out selector with a non-empty chain composes
to InvalidChaining. -/
theorem composeAddrBadOutAux : ∀ a : ResourceAddress, hasBadOut a = true →
    composeAddr a = .error .InvalidChaining
  | .mk et keys subs filters outs, h => by
    simp only [hasBadOut, Bool.or_eq_true] at h
    simp only [composeAddr]
    rcases h with h | h
    · simp [h]
    · have hc := composeChainBadOutAux subs h
      split
      · rfl
      · rw [hc]

/-- A chain containing an address with a bad out selector composes to
InvalidChaining. -/
theorem composeChainBadOutAux : ∀ l : List ResourceAddress, hasBadOutList l = true →
    composeChain l = .error .InvalidChaining
  | a :: rest, h => by
    simp only [hasBadOutList, Bool.or_eq_true] at h
    simp only [composeChain]
    rcases h with h | h
    · rw [composeAddrBadOutAux a h]
    · rcases hr : composeAddr a with e | s
      · cases e
        rfl
      · rw [composeChainBadOutAux rest h]

end

/-- C1: false as stated — AuthYahooCallback never compares the echoed
state with the stored one and invokes the token exchange on every
callback; at a concrete session storing state good and a callback echoing
state evil the exchange is still invoked and the handler completes with a
redirect rather than any StateMismatch failure. -/
theorem callback_ignores_state_and_always_exchanges :
    (∀ (a : YahooConfig) (session : SessionValues) (c st g : String)
        (exch : String → Except String Token),
        (AuthYahooCallback a (.ok session) c st g exch).2 = [c]) ∧
    AuthYahooCallback ⟨"id", "secret", [], "https://h", "/done"⟩
      (.ok [("state", GoVal.str "good")]) "authcode" "evil" "guid"
      (fun _ => .ok ⟨"acc", "ref", 100⟩)
      = (.redirect "/done"
          [("state", GoVal.str "good"),
           ("token", GoVal.tokenPtr ⟨"acc", "ref", 100⟩),
           ("xoauth_yahoo_guid", GoVal.str "guid")], ["authcode"]) := by
  constructor
  · intro a session c st g exch
    unfold AuthYahooCallback
    rcases h : exch c with e | tok <;> simp [h]
  · rfl

/-- C2: false as stated — a failed token exchange in AuthYahooCallback
and a failed network read in GetUserCollection both end in log.Fatal
(process termination), and a failed session fetch in GetUserCollection is
only logged before nil is returned; none of these paths returns a typed
error to the caller. -/
theorem exchange_and_read_failures_terminate_process :
    AuthYahooCallback ⟨"id", "secret", [], "https://h", "/done"⟩
      (.ok [("state", GoVal.str "s")]) "authcode" "s" "guid"
      (fun _ => .error "exchange refused")
      = (.fatal, ["authcode"]) ∧
    GetUserCollection (.ok [("token", GoVal.token ⟨"acc", "ref", 100⟩)])
      (fun _ => .error "network down")
      = (.fatal, [{ verb := "GET", url := usersURL, authToken := ⟨"acc", "ref", 100⟩ }]) ∧
    GetUserCollection (.error "session failure") (fun _ => .ok ⟨200, "body"⟩)
      = (.nilResult, []) :=
  ⟨rfl, rfl, rfl⟩

/-- C3: for a session with no stored credential GetUserCollection issues
zero network calls, but it panics on the unchecked type assertion instead
of returning NotAuthenticated. -/
theorem relay_without_credential_panics (session : SessionValues)
    (transport : Request → Except String HTTPResponse)
    (h : lookupVal session "token" = none) :
    GetUserCollection (.ok session) transport = (.panicked, []) := by
  simp [GetUserCollection, h, assertToken]

/-- Witness for C3 at the empty session. -/
theorem relay_without_credential_panics_witness :
    lookupVal [] "token" = none ∧
    GetUserCollection (.ok []) (fun _ => .ok ⟨200, "B"⟩) = (.panicked, []) :=
  ⟨rfl, relay_without_credential_panics [] (fun _ => .ok ⟨200, "B"⟩) rfl⟩

/-- C4: false as stated — GetUserCollection performs no expiry check: a
credential whose expiry has passed (expiry below the current clock) is
attached to the outbound GET exactly like a live one, instead of being
treated as NotFound. -/
theorem expired_credential_attached_to_request (tok : Token) (now : Int)
    (hexp : tok.expiry < now)
    (transport : Request → Except String HTTPResponse) (res : HTTPResponse)
    (ht : transport { verb := "GET", url := usersURL, authToken := tok } = .ok res) :
    GetUserCollection (.ok [("token", GoVal.token tok)]) transport
      = (.ok { Body := res.body },
         [{ verb := "GET", url := usersURL, authToken := tok }]) := by
  simp [GetUserCollection, lookupVal, assertToken, ht]

/-- Witness for C4: a token expired at time 0, clock at 1. -/
theorem expired_credential_attached_to_request_witness :
    (Token.mk "a" "r" 0).expiry < 1 ∧
    GetUserCollection (.ok [("token", GoVal.token ⟨"a", "r", 0⟩)]) (fun _ => .ok ⟨200, "B"⟩)
      = (.ok { Body := "B" },
         [{ verb := "GET", url := usersURL, authToken := ⟨"a", "r", 0⟩ }]) :=
  ⟨by decide,
   expired_credential_attached_to_request ⟨"a", "r", 0⟩ 1 (by decide)
     (fun _ => .ok ⟨200, "B"⟩) ⟨200, "B"⟩ rfl⟩

/-- C5 counterexample: runs whose responses differ only in status return
identical results, so the status is NOT returned together with the body;
and the single GET goes to the fixed users URL, which is not the composed
path of the ResourceAddress of the scenario. -/
theorem relay_drops_status_counterexample :
    (GetUserCollection (.ok [("token", GoVal.token ⟨"a", "r", 100⟩)])
        (fun _ => .ok ⟨200, "B"⟩)
      = GetUserCollection (.ok [("token", GoVal.token ⟨"a", "r", 100⟩)])
        (fun _ => .ok ⟨500, "B"⟩)) ∧
    usersURL ≠ "http://fantasysports.yahooapis.com/fantasy/v2/team/223.l.431.t.1/roster;week=10" ∧
    composeAddr (ResourceAddress.mk "team" ["223.l.431.t.1"]
        [ResourceAddress.mk "roster" [] [] [] []] [("week", "10")] [])
      = .ok "team/223.l.431.t.1/roster;week=10" :=
  ⟨rfl, by decide, rfl⟩

/-- C5 amended: for every session whose credential is stored as a plain
token value, GetUserCollection issues exactly one authenticated GET — to
the fixed users URL, independent of any ResourceAddress — and returns the
remote body unmodified; the response status is discarded. -/
theorem relay_fixed_url_body_verbatim (tok : Token) (session : SessionValues)
    (h : lookupVal session "token" = some (GoVal.token tok))
    (transport : Request → Except String HTTPResponse) (res : HTTPResponse)
    (ht : transport { verb := "GET", url := usersURL, authToken := tok } = .ok res) :
    GetUserCollection (.ok session) transport
      = (.ok { Body := res.body },
         [{ verb := "GET", url := usersURL, authToken := tok }]) := by
  simp [GetUserCollection, h, assertToken, ht]

/-- Witness for the amended C5 at a concrete session and transport. -/
theorem relay_fixed_url_body_verbatim_witness :
    lookupVal [("token", GoVal.token ⟨"a", "r", 100⟩)] "token"
      = some (GoVal.token ⟨"a", "r", 100⟩) ∧
    GetUserCollection (.ok [("token", GoVal.token ⟨"a", "r", 100⟩)])
        (fun _ => .ok ⟨200, "B"⟩)
      = (.ok { Body := "B" },
         [{ verb := "GET", url := usersURL, authToken := ⟨"a", "r", 100⟩ }]) :=
  ⟨rfl,
   relay_fixed_url_body_verbatim ⟨"a", "r", 100⟩ [("token", GoVal.token ⟨"a", "r", 100⟩)]
     rfl (fun _ => .ok ⟨200, "B"⟩) ⟨200, "B"⟩ rfl⟩

/-- C6: Compose renders the filter pairs as semicolon-delimited clauses
sorted by filter name — the sorted filter list is ordered by name and is
a permutation of the given pairs — and the two example addresses compose
to exactly the stated strings. -/
theorem compose_filters_sorted_examples :
    (∀ fs : List (String × String),
        List.Sorted filterLE (sortFilters fs) ∧ List.Perm (sortFilters fs) fs) ∧
    composeAddr (ResourceAddress.mk "league" ["223.l.431"]
        [ResourceAddress.mk "standings" [] [] [] []] [] [])
      = .ok "league/223.l.431/standings" ∧
    composeAddr (ResourceAddress.mk "players" [] []
        [("status", "A"), ("position", "QB")] [])
      = .ok "players;position=QB;status=A" :=
  ⟨fun fs => ⟨List.sorted_insertionSort filterLE fs, List.perm_insertionSort filterLE fs⟩,
   rfl, rfl⟩

/-- C7: every ResourceAddress in which an out selector segment carries a
non-empty sub-resource chain of its own is rejected by the pure composer
with InvalidChaining, before any network concern arises. -/
theorem compose_rejects_out_chaining (a : ResourceAddress)
    (h : hasBadOut a = true) :
    composeAddr a = .error .InvalidChaining :=
  composeAddrBadOutAux a h

/-- Witness for C7: a users address whose out selector games carries a
chained leagues segment. -/
theorem compose_rejects_out_chaining_witness :
    hasBadOut (ResourceAddress.mk "users" [] [] []
      [ResourceAddress.mk "games" [] [ResourceAddress.mk "leagues" [] [] [] []] [] []]) = true ∧
    composeAddr (ResourceAddress.mk "users" [] [] []
      [ResourceAddress.mk "games" [] [ResourceAddress.mk "leagues" [] [] [] []] [] []])
      = .error .InvalidChaining :=
  ⟨rfl, compose_rejects_out_chaining _ rfl⟩

/-- C8: every successfully composed PUT carries the caller supplied body
document unmodified as the request body — no merging or defaulting — so
no transaction field beyond those in the caller body is transmitted. -/
theorem put_transmits_body_unmodified (addr : ResourceAddress) (body : String)
    (req : RemoteRequest) (h : ExecutePut addr body = .ok req) :
    req.body = body ∧ req.verb = "PUT" := by
  unfold ExecutePut at h
  rcases hc : composeAddr addr with e | path <;> rw [hc] at h
  · cases h
  · cases h
    exact ⟨rfl, rfl⟩

/-- Witness for C8: a concrete faab_bid waiver edit document. -/
theorem put_transmits_body_unmodified_witness :
    ExecutePut (ResourceAddress.mk "transaction" ["248.l.55438.w.c.2_6093"] [] [] [])
        "<fantasy_content><transaction><transaction_key>248.l.55438.w.c.2_6093</transaction_key><type>waiver</type><faab_bid>20</faab_bid></transaction></fantasy_content>"
      = .ok { verb := "PUT", uri := "transaction/248.l.55438.w.c.2_6093",
              body := "<fantasy_content><transaction><transaction_key>248.l.55438.w.c.2_6093</transaction_key><type>waiver</type><faab_bid>20</faab_bid></transaction></fantasy_content>" } ∧
    ({ verb := "PUT", uri := "transaction/248.l.55438.w.c.2_6093",
       body := "<fantasy_content><transaction><transaction_key>248.l.55438.w.c.2_6093</transaction_key><type>waiver</type><faab_bid>20</faab_bid></transaction></fantasy_content>" } : RemoteRequest).body
      = "<fantasy_content><transaction><transaction_key>248.l.55438.w.c.2_6093</transaction_key><type>waiver</type><faab_bid>20</faab_bid></transaction></fantasy_content>" ∧
    ({ verb := "PUT", uri := "transaction/248.l.55438.w.c.2_6093",
       body := "<fantasy_content><transaction><transaction_key>248.l.55438.w.c.2_6093</transaction_key><type>waiver</type><faab_bid>20</faab_bid></transaction></fantasy_content>" } : RemoteRequest).verb = "PUT" :=
  ⟨rfl,
   (put_transmits_body_unmodified
     (ResourceAddress.mk "transaction" ["248.l.55438.w.c.2_6093"] [] [] [])
     "<fantasy_content><transaction><transaction_key>248.l.55438.w.c.2_6093</transaction_key><type>waiver</type><faab_bid>20</faab_bid></transaction></fantasy_content>"
     { verb := "PUT", uri := "transaction/248.l.55438.w.c.2_6093",
       body := "<fantasy_content><transaction><transaction_key>248.l.55438.w.c.2_6093</transaction_key><type>waiver</type><faab_bid>20</faab_bid></transaction></fantasy_content>" }
     rfl).1,
   (put_transmits_body_unmodified
     (ResourceAddress.mk "transaction" ["248.l.55438.w.c.2_6093"] [] [] [])
     "<fantasy_content><transaction><transaction_key>248.l.55438.w.c.2_6093</transaction_key><type>waiver</type><faab_bid>20</faab_bid></transaction></fantasy_content>"
     { verb := "PUT", uri := "transaction/248.l.55438.w.c.2_6093",
       body := "<fantasy_content><transaction><transaction_key>248.l.55438.w.c.2_6093</transaction_key><type>waiver</type><faab_bid>20</faab_bid></transaction></fantasy_content>" }
     rfl).2⟩

/-- C9: the callback stores the exchanged credential as a token POINTER
under session key token, and a subsequent GetUserCollection read asserts
the stored value to the NON-pointer token type, so the read panics before
any network call instead of yielding the stored credential. -/
theorem stored_pointer_token_read_panics
    (a : YahooConfig) (session : SessionValues) (c st g : String)
    (exchange : String → Except String Token) (tok : Token)
    (hx : exchange c = .ok tok)
    (transport : Request → Except String HTTPResponse) :
    AuthYahooCallback a (.ok session) c st g exchange
      = (.redirect a.landing
          (setVal (setVal session "token" (.tokenPtr tok))
            "xoauth_yahoo_guid" (.str g)), [c]) ∧
    GetUserCollection
        (.ok (setVal (setVal session "token" (.tokenPtr tok))
          "xoauth_yahoo_guid" (.str g))) transport
      = (.panicked, []) := by
  constructor
  · simp [AuthYahooCallback, hx]
  · have h1 : lookupVal (setVal (setVal session "token" (.tokenPtr tok))
        "xoauth_yahoo_guid" (.str g)) "token" = some (.tokenPtr tok) := by
      rw [lookupVal_setVal_other _ _ _ _ (by decide)]
      exact lookupVal_setVal_self _ _ _
    simp [GetUserCollection, h1, assertToken]

/-- Witness for C9 at a concrete session, exchange and transport. -/
theorem stored_pointer_token_read_panics_witness :
    (fun _ : String => (.ok (Token.mk "acc" "ref" 100) : Except String Token)) "code"
      = .ok (Token.mk "acc" "ref" 100) ∧
    (AuthYahooCallback ⟨"id", "secret", [], "https://h", "/done"⟩ (.ok []) "code" "st" "g"
        (fun _ => .ok (Token.mk "acc" "ref" 100))
      = (.redirect (YahooConfig.mk "id" "secret" [] "https://h" "/done").landing
          (setVal (setVal [] "token" (.tokenPtr (Token.mk "acc" "ref" 100)))
            "xoauth_yahoo_guid" (.str "g")), ["code"]) ∧
    GetUserCollection
        (.ok (setVal (setVal [] "token" (.tokenPtr (Token.mk "acc" "ref" 100)))
          "xoauth_yahoo_guid" (.str "g"))) (fun _ => .ok ⟨200, "B"⟩)
      = (.panicked, [])) :=
  ⟨rfl,
   stored_pointer_token_read_panics ⟨"id", "secret", [], "https://h", "/done"⟩ [] "code"
     "st" "g" (fun _ => .ok (Token.mk "acc" "ref" 100)) (Token.mk "acc" "ref" 100) rfl
     (fun _ => .ok ⟨200, "B"⟩)⟩

/-- C10: a session whose value map has no entry under key state makes
AuthYahoo panic on the unchecked type assertion instead of generating a
state value or returning an error; and the only session-writing operation
of the repository, the callback, never writes the state key, so a fresh
session stays without it. -/
theorem authyahoo_missing_state_panics (a : YahooConfig) (session : SessionValues)
    (h : lookupVal session "state" = none) :
    AuthYahoo a (.ok session) = .panicked ∧
    (∀ c st g exch loc s2,
        (AuthYahooCallback a (.ok session) c st g exch).1 = .redirect loc s2 →
        lookupVal s2 "state" = none) := by
  constructor
  · simp [AuthYahoo, h, assertString]
  · intro c st g exch loc s2 hred
    unfold AuthYahooCallback at hred
    rcases hx : exch c with e | tok <;> rw [hx] at hred <;> simp at hred
    rcases hred with ⟨h1, h2⟩
    subst h2
    rw [lookupVal_setVal_other _ _ _ _ (by decide),
        lookupVal_setVal_other _ _ _ _ (by decide)]
    exact h

/-- Witness for C10 at the empty (fresh) session. -/
theorem authyahoo_missing_state_panics_witness :
    lookupVal [] "state" = none ∧
    AuthYahoo ⟨"id", "secret", [], "https://h", "/done"⟩ (.ok []) = .panicked :=
  ⟨rfl,
   (authyahoo_missing_state_panics ⟨"id", "secret", [], "https://h", "/done"⟩ [] rfl).1⟩

end YahooApi
